import Mathlib

/-!
Shallow embedding of the `polls` application (`src/polls/models.py`,
`src/polls/views.py`, `src/polls/urls.py`).

Timestamps are modelled as integer seconds; `datetime.timedelta(days=1)`
is 86400 seconds.  The entity store (Django ORM tables) is a pair of
lists of `Question` and `Choice` records.
-/

namespace Polls

/-- Record of the `Question` model (`models.py`): id, `question_text`, `pub_date`. -/
structure Question where
  id : Nat
  question_text : String
  pub_date : Int
deriving Repr, DecidableEq

/-- Record of the `Choice` model (`models.py`): id, owning question foreign key,
`choice_text`, `votes` (an `IntegerField` with `default=0`). -/
structure Choice where
  id : Nat
  question_id : Nat
  choice_text : String
  votes : Int
deriving Repr, DecidableEq

/-- The entity store: the two relational tables. -/
structure Store where
  questions : List Question
  choices : List Choice
deriving Repr, DecidableEq

/-- Evaluation of `question.choice_set.all()`: the Choice rows whose foreign key
references `q`. -/
def choice_set (s : Store) (q : Question) : List Choice :=
  s.choices.filter (fun c => c.question_id = q.id)

/-- Seconds in `datetime.timedelta(days=1)`. -/
def oneDay : Int := 86400

/-- Embeds `Question.was_published_recently` (`models.py`):
`now - datetime.timedelta(days=1) <= self.pub_date <= now`. -/
def was_published_recently (now : Int) (q : Question) : Bool :=
  decide (now - oneDay ≤ q.pub_date ∧ q.pub_date ≤ now)

/-- Embeds `Question.has_choice_set` (`models.py`):
`bool(self.choice_set.all())`, i.e. the choice set is non-empty. -/
def has_choice_set (s : Store) (q : Question) : Bool :=
  !(choice_set s q).isEmpty

/-- Lexicographic (code-point) string comparison, ascending: the order a
relational backend gives `order_by('choice_text')`. -/
def textLe : List Char → List Char → Bool
  | [], _ => true
  | _ :: _, [] => false
  | a :: as, b :: bs => if a = b then textLe as bs else decide (a < b)

theorem textLe_total : ∀ as bs, textLe as bs = true ∨ textLe bs as = true
  | [], _ => Or.inl rfl
  | _ :: _, [] => Or.inr rfl
  | a :: as, b :: bs => by
    by_cases hab : a = b
    · subst hab
      simpa only [textLe, if_pos rfl] using textLe_total as bs
    · have hba : ¬ b = a := fun h => hab h.symm
      rcases lt_or_gt_of_ne hab with h | h
      · left; simp only [textLe, if_neg hab, decide_eq_true_eq]; exact h
      · right; simp only [textLe, if_neg hba, decide_eq_true_eq]; exact h

theorem textLe_trans :
    ∀ as bs cs, textLe as bs = true → textLe bs cs = true → textLe as cs = true
  | [], _, _ => fun _ _ => rfl
  | _ :: _, [], _ => fun h _ => by simp [textLe] at h
  | _ :: _, _ :: _, [] => fun _ h => by simp [textLe] at h
  | a :: as, b :: bs, c :: cs => fun h1 h2 => by
    by_cases hab : a = b <;> by_cases hbc : b = c
    · subst hab; subst hbc
      simp only [textLe, if_pos rfl] at h1 h2 ⊢
      exact textLe_trans as bs cs h1 h2
    · subst hab
      simp only [textLe, if_neg hbc] at h2 ⊢
      exact h2
    · subst hbc
      simp only [textLe, if_neg hab] at h1 ⊢
      exact h1
    · simp only [textLe, if_neg hab, if_neg hbc, decide_eq_true_eq] at h1 h2
      have hac : a < c := lt_trans h1 h2
      simp only [textLe, if_neg (ne_of_lt hac), decide_eq_true_eq]
      exact hac

/-- The row order produced by `order_by('-votes', 'choice_text')`:
votes descending, `choice_text` ascending on equal votes. -/
def voteOrder (a b : Choice) : Prop :=
  b.votes < a.votes ∨
    (a.votes = b.votes ∧ textLe a.choice_text.data b.choice_text.data = true)

instance : DecidableRel voteOrder := fun a b =>
  inferInstanceAs (Decidable (b.votes < a.votes ∨
    (a.votes = b.votes ∧ textLe a.choice_text.data b.choice_text.data = true)))

instance : IsTotal Choice voteOrder where
  total a b := by
    rcases lt_trichotomy a.votes b.votes with h | h | h
    · exact Or.inr (Or.inl h)
    · rcases textLe_total a.choice_text.data b.choice_text.data with ht | ht
      · exact Or.inl (Or.inr ⟨h, ht⟩)
      · exact Or.inr (Or.inr ⟨h.symm, ht⟩)
    · exact Or.inl (Or.inl h)

instance : IsTrans Choice voteOrder where
  trans a b c hab hbc := by
    rcases hab with h1 | ⟨h1, t1⟩
    · rcases hbc with h2 | ⟨h2, _⟩
      · exact Or.inl (h2.trans h1)
      · exact Or.inl (h2 ▸ h1)
    · rcases hbc with h2 | ⟨h2, t2⟩
      · exact Or.inl (h1 ▸ h2)
      · exact Or.inr ⟨h1.trans h2, textLe_trans _ _ _ t1 t2⟩

/-- Embeds `Question.sorted_choice_set_by_votes` (`models.py`):
`self.choice_set.order_by('-votes', 'choice_text')`. -/
def sorted_choice_set_by_votes (s : Store) (q : Question) : List Choice :=
  List.insertionSort voteOrder (choice_set s q)

/-- The row order produced by `order_by('choice_text')`. -/
def textOrder (a b : Choice) : Prop :=
  textLe a.choice_text.data b.choice_text.data = true

instance : DecidableRel textOrder := fun a b =>
  inferInstanceAs (Decidable (textLe a.choice_text.data b.choice_text.data = true))

/-- Embeds `Question.sorted_choice_set_by_text` (`models.py`):
`self.choice_set.order_by('choice_text')`. -/
def sorted_choice_set_by_text (s : Store) (q : Question) : List Choice :=
  List.insertionSort textOrder (choice_set s q)

/-- A row created by `Question.objects.create(...)`. -/
def new_question (id : Nat) (text : String) (pub : Int) : Question :=
  ⟨id, text, pub⟩

/-- A Choice row created without an explicit vote count: `models.py`
declares `votes = models.IntegerField(default=0)`, so the field starts
at `0`. -/
def new_choice (id qid : Nat) (text : String) : Choice :=
  ⟨id, qid, text, 0⟩

/-- Inserting a question row into the store. -/
def create_question (s : Store) (id : Nat) (text : String) (pub : Int) : Store :=
  ⟨new_question id text pub :: s.questions, s.choices⟩

/-- Inserting a choice row with the default vote count. -/
def create_choice (s : Store) (id qid : Nat) (text : String) : Store :=
  ⟨s.questions, new_choice id qid text :: s.choices⟩

/-- Modelled from the spec: the final-shape `vote` handler's mutation
("increments the selected choice's vote count by 1, persists it"); the
function view in `src/polls/views.py` never mutates the store, so the
spec supplies the only vote-count mutation of the design. -/
def vote_inc (s : Store) (cid : Nat) : Store :=
  ⟨s.questions, s.choices.map (fun c => if c.id = cid then { c with votes := c.votes + 1 } else c)⟩

/-- Effect of `question.delete()` under `on_delete=models.CASCADE`
(`models.py`, `Choice.question` foreign key): the question row and every
choice row referencing it are removed. -/
def delete_question (s : Store) (qid : Nat) : Store :=
  ⟨s.questions.filter (fun q => q.id ≠ qid),
   s.choices.filter (fun c => c.question_id ≠ qid)⟩

/-- One store transition: the repository's create operations, the
spec-modelled vote increment, and cascading question deletion. -/
inductive Step : Store → Store → Prop
  | createQuestion (s : Store) (id : Nat) (text : String) (pub : Int) :
      Step s (create_question s id text pub)
  | createChoice (s : Store) (id qid : Nat) (text : String) :
      Step s (create_choice s id qid text)
  | voteInc (s : Store) (cid : Nat) :
      Step s (vote_inc s cid)
  | deleteQuestion (s : Store) (qid : Nat) :
      Step s (delete_question s qid)

/-- Store states reachable from the empty store. -/
inductive Reachable : Store → Prop
  | init : Reachable ⟨[], []⟩
  | step {s t : Store} : Reachable s → Step s t → Reachable t

/-- An HTTP response: status code and body.  Django's
`HttpResponse(text)` has status 200. -/
structure HttpResponse where
  status : Nat
  body : String
deriving Repr, DecidableEq

/-- An incoming request; the POST data may carry a choice id.  The
function views in `src/polls/views.py` never read it. -/
structure Request where
  post_choice : Option Nat
deriving Repr, DecidableEq

/-- Embeds `views.index` (`views.py`): returns a static greeting; the store is
neither read nor written. -/
def index (s : Store) (_req : Request) : HttpResponse × Store :=
  (⟨200, "Hello World! You're at the Polls index."⟩, s)

/-- Embeds `views.detail` (`views.py`): formats the question id into a static
message, with no store lookup. -/
def detail (s : Store) (_req : Request) (question_id : Nat) : HttpResponse × Store :=
  (⟨200, "You're looking at question " ++ toString question_id ++ "."⟩, s)

/-- Embeds `views.results` (`views.py`): formats the question id into a static
message, with no store lookup. -/
def results (s : Store) (_req : Request) (question_id : Nat) : HttpResponse × Store :=
  (⟨200, "You're looking at the results of question " ++ toString question_id ++ "."⟩, s)

/-- Embeds `views.vote` (`views.py`): formats the question id into a static
message; nothing is incremented and no redirect is issued. -/
def vote (s : Store) (_req : Request) (question_id : Nat) : HttpResponse × Store :=
  (⟨200, "You're voting on question " ++ toString question_id ++ "."⟩, s)

/-- A concrete question with three choices A, B, C carrying 1, 2 and 1
votes, used to evaluate the sort order of `sorted_choice_set_by_votes`. -/
def tieQuestion : Question := ⟨1, "Q", 0⟩

/-- Store holding `tieQuestion` and its three choices \x7bA:1, B:2, C:1\x7d. -/
def tieStore : Store :=
  ⟨[tieQuestion], [⟨1, 1, "A", 1⟩, ⟨2, 1, "B", 2⟩, ⟨3, 1, "C", 1⟩]⟩

/-- Store with one past-published question owning one choice at 0 votes. -/
def bugStore : Store := ⟨[⟨1, "Q", -864000⟩], [⟨1, 1, "A", 0⟩]⟩

/-- Store with one future-dated question (relative to `now = 0`) and no
choices. -/
def futureStore : Store := ⟨[⟨1, "F", 864000⟩], []⟩

/-- Store with two questions where choice 2 belongs to question 2, so
voting on question 1 with choice 2 targets a foreign choice. -/
def crossStore : Store :=
  ⟨[⟨1, "Q1", -864000⟩, ⟨2, "Q2", -864000⟩], [⟨1, 1, "A", 0⟩, ⟨2, 2, "B", 0⟩]⟩

/-- The qualifying question of `qualStore`: published 10 days in the
past (relative to `now = 0`). -/
def qualQuestion : Question := ⟨1, "Q", -864000⟩

/-- Store with a past-published question owning three choices: a
question the intended index list must display. -/
def qualStore : Store :=
  ⟨[qualQuestion],
   [⟨1, 1, "Choice A", 0⟩, ⟨2, 1, "Choice B", 0⟩, ⟨3, 1, "Choice C", 0⟩]⟩

/-- Choice rows of every reachable store have non-negative vote counts:
rows are created with the default `0` and the only mutation adds `1`. -/
theorem votes_nonneg_of_reachable {s : Store} (h : Reachable s) :
    ∀ c ∈ s.choices, 0 ≤ c.votes := by
  induction h with
  | init => intro c hc; cases hc
  | step _ hs ih =>
    cases hs with
    | createQuestion id text pub =>
      intro c hc; exact ih c hc
    | createChoice id qid text =>
      intro c hc
      rcases List.mem_cons.mp hc with rfl | hc
      · exact le_refl 0
      · exact ih c hc
    | voteInc cid =>
      intro c hc
      rcases List.mem_map.mp hc with ⟨c0, hc0, rfl⟩
      have h0 := ih c0 hc0
      by_cases hid : c0.id = cid <;> simp [hid] <;> omega
    | deleteQuestion qid =>
      intro c hc
      exact ih c (List.mem_filter.mp hc).1

end Polls

open Polls

/-- C4: for every question, `was_published_recently` returns `true` iff
the publish timestamp lies in the closed interval of the 86400 seconds
(24 hours) up to `now`, both bounds inclusive. -/
theorem c4_was_published_recently_iff (now : Int) (q : Question) :
    was_published_recently now q = true ↔
      now - 86400 ≤ q.pub_date ∧ q.pub_date ≤ now := by
  simp [was_published_recently, oneDay]

/-- C7: for every store and question, `has_choice_set` returns `true`
iff the question's set of owned Choice rows is non-empty. -/
theorem c7_has_choice_set_iff (s : Store) (q : Question) :
    has_choice_set s q = true ↔ choice_set s q ≠ [] := by
  simp [has_choice_set, List.isEmpty_iff]

/-- C6: `sorted_choice_set_by_votes` returns exactly the question's
choices (a permutation of `choice_set`) sorted by vote count descending
with `choice_text` ascending on ties; on choices \x7bA:1, B:2, C:1\x7d the
resulting order is [B, A, C]. -/
theorem c6_sorted_choice_set_by_votes_spec :
    (∀ (s : Store) (q : Question),
        (sorted_choice_set_by_votes s q).Perm (choice_set s q) ∧
        List.Sorted voteOrder (sorted_choice_set_by_votes s q)) ∧
    (sorted_choice_set_by_votes tieStore tieQuestion).map Choice.choice_text
      = ["B", "A", "C"] := by
  refine ⟨fun s q => ⟨List.perm_insertionSort voteOrder (choice_set s q),
    List.sorted_insertionSort voteOrder (choice_set s q)⟩, ?_⟩
  decide

/-- C9: deleting a question cascades to its choices: afterwards no
Choice row referencing the deleted question id remains in the store. -/
theorem c9_delete_question_cascades (s : Store) (qid : Nat) :
    ((delete_question s qid).choices.all fun c => c.question_id != qid) = true := by
  simp only [delete_question, List.all_eq_true, List.mem_filter, decide_eq_true_eq]
  intro c hc
  simpa using hc.2

/-- C10: the four function views are deterministic, their responses
depend only on the question id from the route (identical across any two
store states and requests), and none of them reads or writes the entity
store (the store component of the result is the input store). -/
theorem c10_handlers_store_independent (s₁ s₂ : Store) (r₁ r₂ : Request) (id : Nat) :
    ((index s₁ r₁).1 = (index s₂ r₂).1 ∧ (index s₁ r₁).2 = s₁) ∧
    ((detail s₁ r₁ id).1 = (detail s₂ r₂ id).1 ∧ (detail s₁ r₁ id).2 = s₁) ∧
    ((results s₁ r₁ id).1 = (results s₂ r₂ id).1 ∧ (results s₁ r₁ id).2 = s₁) ∧
    ((vote s₁ r₁ id).1 = (vote s₂ r₂ id).1 ∧ (vote s₁ r₁ id).2 = s₁) :=
  ⟨⟨rfl, rfl⟩, ⟨rfl, rfl⟩, ⟨rfl, rfl⟩, ⟨rfl, rfl⟩⟩

/-- C8: in every store state reachable through the repository's
operations every choice carries a non-negative vote count, and a choice
created without an explicit vote count starts at the field default `0`. -/
theorem c8_votes_nonneg (s : Store) (h : Reachable s) (id qid : Nat) (text : String) :
    (s.choices.all fun c => decide (0 ≤ c.votes)) = true ∧
    ((create_choice s id qid text).choices.head?.map Choice.votes) = some 0 := by
  constructor
  · simp only [List.all_eq_true, decide_eq_true_eq]
    exact votes_nonneg_of_reachable h
  · rfl

/-- Witness for C8 at a concrete reachable store: create a question,
attach a choice, record one vote, then create another choice. -/
theorem c8_votes_nonneg_witness :
    ((vote_inc (create_choice (create_question ⟨[], []⟩ 1 "Q" 0) 1 1 "A") 1).choices.all
        fun c => decide (0 ≤ c.votes)) = true ∧
    ((create_choice (vote_inc (create_choice (create_question ⟨[], []⟩ 1 "Q" 0) 1 1 "A") 1)
        2 1 "B").choices.head?.map Choice.votes) = some 0 :=
  c8_votes_nonneg
    (vote_inc (create_choice (create_question ⟨[], []⟩ 1 "Q" 0) 1 1 "A") 1)
    (Reachable.step
      (Reachable.step
        (Reachable.step Reachable.init (Step.createQuestion ⟨[], []⟩ 1 "Q" 0))
        (Step.createChoice (create_question ⟨[], []⟩ 1 "Q" 0) 1 1 "A"))
      (Step.voteInc (create_choice (create_question ⟨[], []⟩ 1 "Q" 0) 1 1 "A") 1))
    2 1 "B"

/-- C1 evidence: the `vote` view of `views.py` increments nothing and
issues no redirect: on a store whose only choice has 0 votes, voting
once leaves the store unchanged, voting twice still leaves the choice at
0 votes, and the response is a plain 200 text response, not a redirect
to the results page. -/
theorem c1_vote_does_not_increment :
    (vote bugStore ⟨some 1⟩ 1).2 = bugStore ∧
    ((vote (vote bugStore ⟨some 1⟩ 1).2 ⟨some 1⟩ 1).2.choices.map Choice.votes) = [0] ∧
    (vote bugStore ⟨some 1⟩ 1).1.status = 200 :=
  ⟨rfl, rfl, rfl⟩

/-- C2 evidence: the `detail` and `results` views of `views.py` return
status 200 — never 404 — for a future-dated question and give the very
same response when the id is absent from the store. -/
theorem c2_detail_results_never_404 :
    (detail futureStore ⟨none⟩ 1).1.status = 200 ∧
    (results futureStore ⟨none⟩ 1).1.status = 200 ∧
    (detail (⟨[], []⟩ : Store) ⟨none⟩ 1).1 = (detail futureStore ⟨none⟩ 1).1 ∧
    (results (⟨[], []⟩ : Store) ⟨none⟩ 1).1 = (results futureStore ⟨none⟩ 1).1 :=
  ⟨rfl, rfl, rfl, rfl⟩

/-- C3 evidence: the `vote` view of `views.py` silently ignores a choice
that belongs to a different question: the response to voting with the
foreign choice 2 on question 1 equals the response with its own choice
1, the store is untouched, and no error page is produced (status 200). -/
theorem c3_vote_ignores_foreign_choice :
    (vote crossStore ⟨some 2⟩ 1).2 = crossStore ∧
    (vote crossStore ⟨some 2⟩ 1).1 = (vote crossStore ⟨some 1⟩ 1).1 ∧
    (vote crossStore ⟨some 2⟩ 1).1.status = 200 :=
  ⟨rfl, rfl, rfl⟩

/-- C5 evidence: the `index` view of `views.py` returns the static
greeting with no question list at all: its response over a store holding
a past-published question with three choices (which `has_choice_set`
confirms qualifies) is identical to its response over the empty store. -/
theorem c5_index_returns_static_greeting :
    (index qualStore ⟨none⟩).1 = (index (⟨[], []⟩ : Store) ⟨none⟩).1 ∧
    (index qualStore ⟨none⟩).1.body = "Hello World! You're at the Polls index." ∧
    has_choice_set qualStore qualQuestion = true ∧
    was_published_recently 0 qualQuestion = false ∧
    qualQuestion.pub_date ≤ 0 :=
  ⟨rfl, rfl, by decide, by decide, by decide⟩
